import Mathlib

/-!
Shallow embedding of the user-account core of the Base-Project repository
(src/app/domain, src/app/shared/security.py, src/app/use_cases).

Conventions of the embedding:
* Python exceptions are modelled by `Except AppError`; raising is `Except.error`.
* `datetime.now(timezone.utc)` is modelled by an explicit `now : Nat` argument.
* `uuid.uuid4()` is modelled by an explicit fresh-id argument.
* External collaborators (the password-hash library, the JWT library, the
  database) are modelled as explicit function parameters or outcome values.
-/

/-- Errors of the application: the domain exceptions of
`src/app/domain/exceptions/users.py`, the `ValueError` raised by
`User.set_password`, and a passed-through database `IntegrityError`. -/
inductive AppError where
  | usernameAlreadyExists
  | emailAlreadyExists
  | userNotFound
  | userDisabled
  | invalidEmailFormat
  | invalidUsernameFormat
  | invalidPasswordFormat (message : String)
  | invalidCredentials
  | invalidPasswordException
  | valueError (message : String)
  | integrityError (uniqueViolation : Bool) (origMsg : String)
  deriving DecidableEq, Repr

/-- Python `c in s` for a single character `c`: membership of the character
in the string. -/
def pyIn (c : Char) (s : String) : Bool :=
  s.toList.contains c

/-- `UserIdentity` value object (`src/app/domain/entities/user.py`). -/
structure UserIdentity where
  username : String
  email : String
  deriving DecidableEq, Repr

/-- `UserIdentity.__post_init__`: raise `InvalidUsernameFormat` when the
username is falsy or its length is not between 4 and 10, then raise
`InvalidEmailFormat` when the email does not contain an at sign.
Construction returning the validated value object. -/
def UserIdentity.make (username email : String) : Except AppError UserIdentity :=
  if username = "" ∨ ¬(4 ≤ username.length ∧ username.length ≤ 10) then
    Except.error AppError.invalidUsernameFormat
  else if ¬(pyIn '@' email) then
    Except.error AppError.invalidEmailFormat
  else
    Except.ok { username := username, email := email }

/-- `UserSecurity` value object (`src/app/domain/entities/user.py`). -/
structure UserSecurity where
  hashed_password : String := ""
  disabled : Bool := false
  is_email_verified : Bool := false
  deriving DecidableEq, Repr

/-- The `User` entity. Timestamps and the UUID are modelled as naturals. -/
structure User where
  id : Nat
  identity : UserIdentity
  security : UserSecurity
  created_at : Nat
  updated_at : Nat
  deriving DecidableEq, Repr

/-- Factory method `User.create`: build the identity (validating), an empty
security value, a fresh id, and both timestamps set to now. -/
def User.create (username email : String) (freshId : Nat) (now : Nat) :
    Except AppError User := do
  let identity ← UserIdentity.make username email
  let security : UserSecurity :=
    { hashed_password := "", disabled := false, is_email_verified := false }
  Except.ok { id := freshId, identity := identity, security := security,
              created_at := now, updated_at := now }

/-- `User.set_password`: `ValueError` on an empty hash, otherwise replace the
hash field of the security value and bump `updated_at`. -/
def User.set_password (u : User) (hashed_password : String) (now : Nat) :
    Except AppError User :=
  if hashed_password = "" then
    Except.error (AppError.valueError "Хеш пароля не может быть пустым")
  else
    Except.ok { u with
      security := { u.security with hashed_password := hashed_password },
      updated_at := now }

/-- `User.change_username`: rebuild the identity with the new username and the
existing email (re-validating both), bump `updated_at`. -/
def User.change_username (u : User) (new_username : String) (now : Nat) :
    Except AppError User := do
  let identity ← UserIdentity.make new_username u.identity.email
  Except.ok { u with identity := identity, updated_at := now }

/-- `User.change_email`: rebuild the identity with the existing username and
the new email (re-validating both), reset `is_email_verified` to false, bump
`updated_at`. -/
def User.change_email (u : User) (new_email : String) (now : Nat) :
    Except AppError User := do
  let identity ← UserIdentity.make u.identity.username new_email
  let security := { u.security with is_email_verified := false }
  Except.ok { u with identity := identity, security := security, updated_at := now }

/-- `User.enable`. -/
def User.enable (u : User) (now : Nat) : User :=
  { u with security := { u.security with disabled := false }, updated_at := now }

/-- `User.disable`. -/
def User.disable (u : User) (now : Nat) : User :=
  { u with security := { u.security with disabled := true }, updated_at := now }

/-- `User.mark_email_as_verified`. -/
def User.mark_email_as_verified (u : User) (now : Nat) : User :=
  let security := { u.security with is_email_verified := true }
  { u with security := security, updated_at := now }

/-- `User.is_enabled` property: the logical negation of `disabled`. -/
def User.is_enabled (u : User) : Bool := !u.security.disabled

/-! Password value object (`src/app/domain/value_objects/password.py`). -/

/-- Python `re.search r"[A-Z]"` on the password value. -/
def hasUppercase (s : String) : Bool :=
  s.toList.any fun c => decide ('A' ≤ c ∧ c ≤ 'Z')

/-- Python `re.search r"[a-z]"` on the password value. -/
def hasLowercase (s : String) : Bool :=
  s.toList.any fun c => decide ('a' ≤ c ∧ c ≤ 'z')

/-- Python `re.search r"[0-9]"` on the password value. -/
def hasDigitChar (s : String) : Bool :=
  s.toList.any fun c => decide ('0' ≤ c ∧ c ≤ '9')

/-- The four rule messages of `Password.__post_init__`, in source order. -/
def passwordLengthMessage : String := "Пароль должен быть минимум 8 символов"

/-- Message for the missing-uppercase rule. -/
def passwordUppercaseMessage : String := "Пароль должен содержать заглавную букву"

/-- Message for the missing-lowercase rule. -/
def passwordLowercaseMessage : String := "Пароль должен содержать строчную букву"

/-- Message for the missing-digit rule. -/
def passwordDigitMessage : String := "Пароль должен содержать цифру"

/-- `Password` value object holding a validated plaintext value. -/
structure Password where
  value : String
  deriving DecidableEq, Repr

/-- `Password.__post_init__`: the four checks in source order, first failure
wins, each raising `InvalidPasswordFormat` with its own message. -/
def Password.make (value : String) : Except AppError Password :=
  if value.length < 8 then
    Except.error (AppError.invalidPasswordFormat passwordLengthMessage)
  else if ¬(hasUppercase value) then
    Except.error (AppError.invalidPasswordFormat passwordUppercaseMessage)
  else if ¬(hasLowercase value) then
    Except.error (AppError.invalidPasswordFormat passwordLowercaseMessage)
  else if ¬(hasDigitChar value) then
    Except.error (AppError.invalidPasswordFormat passwordDigitMessage)
  else
    Except.ok { value := value }

/-- Whether an `Except` result is a success. -/
def exceptIsOk {α : Type} (e : Except AppError α) : Bool :=
  match e with
  | Except.ok _ => true
  | Except.error _ => false

/-! Credential functions (`src/app/shared/security.py`).

`verify_password` and `get_password_hash` delegate to the pwdlib library,
whose code is not part of the repository, and `create_access_token` and
`decode_access_token` delegate to the PyJWT library, likewise external.
The wrappers in `security.py` are embedded; the libraries are modelled. -/

/-- Modelled from the spec: the pwdlib `PasswordHash.hash` backing
`get_password_hash` is a third-party library not in the repository. The spec
describes a deterministic one-way transformation with self-describing output;
the model tags the plaintext with an algorithm marker. -/
def get_password_hash (password : String) : String :=
  "argon2id$" ++ password

/-- Modelled from the spec: the pwdlib `PasswordHash.verify` backing
`verify_password` is a third-party library not in the repository. Per the
spec it returns a boolean, false on any mismatch or malformed hash, and does
not raise for a wrong password: a total function into `Bool`. -/
def verify_password (plain_password : String) (hashed_password : String) : Bool :=
  hashed_password == get_password_hash plain_password

/-- Modelled from the spec: the outcome of the PyJWT `jwt.decode` call inside
`decode_access_token`; PyJWT is a third-party library not in the repository.
Either a decoded payload (signature and expiration verified), given as the
claim list, or some `PyJWTError` (expired, tampered, malformed, ...). -/
inductive JwtDecodeOutcome where
  | payload (claims : List (String × String))
  | pyJwtError
  deriving DecidableEq, Repr

/-- Python `payload.get key`: first value bound to the key, if any. -/
def payloadGet (claims : List (String × String)) (key : String) : Option String :=
  (claims.find? fun kv => kv.fst == key).map Prod.snd

/-- `decode_access_token`, parametrised by the library outcome for the given
token: return `payload.get sub` on success, `none` on any `PyJWTError`. -/
def decode_access_token (outcome : JwtDecodeOutcome) : Option String :=
  match outcome with
  | JwtDecodeOutcome.payload claims => payloadGet claims "sub"
  | JwtDecodeOutcome.pyJwtError => none

/-! The account store (`src/app/domain/interfaces/user_repository.py`,
implemented over the database): modelled as a list of users. -/

/-- The store state: the persisted users. -/
structure Store where
  users : List User
  deriving Repr

/-- `get_by_username`: optional lookup by username. -/
def Store.get_by_username (st : Store) (username : String) : Option User :=
  st.users.find? fun u => u.identity.username == username

/-- `get_by_email`: optional lookup by email. -/
def Store.get_by_email (st : Store) (email : String) : Option User :=
  st.users.find? fun u => u.identity.email == email

/-- `create_user`: insert the new user. -/
def Store.create_user (st : Store) (u : User) : Store :=
  { users := st.users ++ [u] }

/-- `update_user`: replace the record with the matching id. -/
def Store.update_user (st : Store) (u : User) : Store :=
  { users := st.users.map fun v => if v.id == u.id then u else v }

/-! Use case `AuthenticateUserUseCase._run`
(`src/app/use_cases/auth/authenticate.py`). -/

/-- The claims put into the token by `_run` (sub is `str(user.id)`). -/
structure TokenData where
  sub : String
  username : String
  email : String
  deriving DecidableEq, Repr

/-- The `{access_token, token_type}` dict returned by `_run`. -/
structure AuthResponse where
  access_token : String
  token_type : String
  deriving DecidableEq, Repr

/-- `AuthenticateUserUseCase._run`, parametrised by the external token
encoder (`create_access_token` delegates to PyJWT): look up by username; if
absent or the password does not verify, `InvalidCredentials`; if the account
is not enabled, `UserDisabled`; otherwise issue the token. -/
def AuthenticateUserUseCase.run (issueToken : TokenData → String)
    (st : Store) (username : String) (password : String) :
    Except AppError AuthResponse :=
  match st.get_by_username username with
  | none => Except.error AppError.invalidCredentials
  | some user =>
    if ¬(verify_password password user.security.hashed_password) then
      Except.error AppError.invalidCredentials
    else if ¬user.is_enabled then
      Except.error AppError.userDisabled
    else
      let data : TokenData :=
        { sub := toString user.id, username := user.identity.username,
          email := user.identity.email }
      Except.ok { access_token := issueToken data, token_type := "bearer" }

/-! Use case `UpdateUserUseCase._run` (`src/app/use_cases/profile/update.py`).

The Python entity is mutated in place, and the unit of work commits the
store on success and rolls it back on an error. The embedding returns the
final outcome, the entity's final in-memory state, and the store after
commit or rollback. -/

/-- `UpdateUserDTO`. -/
structure UpdateUserDTO where
  current_password : String
  username : Option String := none
  email : Option String := none
  new_password : Option String := none
  deriving Repr

/-- Step 2 of `UpdateUserUseCase._run`: if a username was supplied and
differs, check uniqueness then `change_username`. Returns the outcome, the
entity state, and whether a change was made. -/
def updateUsernameStep (st : Store) (user : User) (newName : Option String)
    (now : Nat) : Except AppError Unit × User × Bool :=
  match newName with
  | none => (Except.ok (), user, false)
  | some name =>
    if name = user.identity.username then (Except.ok (), user, false)
    else if (st.get_by_username name).isSome then
      (Except.error AppError.usernameAlreadyExists, user, false)
    else
      match user.change_username name now with
      | Except.error e => (Except.error e, user, false)
      | Except.ok u' => (Except.ok (), u', true)

/-- Step 3 of `UpdateUserUseCase._run`: if an email was supplied and differs,
check uniqueness then `change_email`. -/
def updateEmailStep (st : Store) (user : User) (newEmail : Option String)
    (now : Nat) : Except AppError Unit × User × Bool :=
  match newEmail with
  | none => (Except.ok (), user, false)
  | some email =>
    if email = user.identity.email then (Except.ok (), user, false)
    else if (st.get_by_email email).isSome then
      (Except.error AppError.emailAlreadyExists, user, false)
    else
      match user.change_email email now with
      | Except.error e => (Except.error e, user, false)
      | Except.ok u' => (Except.ok (), u', true)

/-- Step 4 of `UpdateUserUseCase._run`: if a new password was supplied,
validate it through the `Password` value object, hash it, `set_password`. -/
def updatePasswordStep (user : User) (newPassword : Option String)
    (now : Nat) : Except AppError Unit × User × Bool :=
  match newPassword with
  | none => (Except.ok (), user, false)
  | some pw =>
    match Password.make pw with
    | Except.error e => (Except.error e, user, false)
    | Except.ok password =>
      match user.set_password (get_password_hash password.value) now with
      | Except.error e => (Except.error e, user, false)
      | Except.ok u' => (Except.ok (), u', true)

/-- `UpdateUserUseCase._run`: verify the current password against the stored
hash first, failing with `InvalidPasswordException` before any mutation; then
the username, email and password steps in order; persist through
`update_user` only when some change was made. An error rolls the store back
to its initial state. -/
def UpdateUserUseCase.run (st : Store) (user : User) (dto : UpdateUserDTO)
    (now : Nat) : Except AppError Unit × User × Store :=
  if ¬(verify_password dto.current_password user.security.hashed_password) then
    (Except.error AppError.invalidPasswordException, user, st)
  else
    match updateUsernameStep st user dto.username now with
    | (Except.error e, u, _) => (Except.error e, u, st)
    | (Except.ok _, u1, c1) =>
      match updateEmailStep st u1 dto.email now with
      | (Except.error e, u, _) => (Except.error e, u, st)
      | (Except.ok _, u2, c2) =>
        match updatePasswordStep u2 dto.new_password now with
        | (Except.error e, u, _) => (Except.error e, u, st)
        | (Except.ok _, u3, c3) =>
          (Except.ok (), u3, if c1 || c2 || c3 then st.update_user u3 else st)

/-! Use case `RegisterUserUseCase._run` (`src/app/use_cases/auth/register.py`). -/

/-- `RegisterUserDTO`. -/
structure RegisterUserDTO where
  username : String
  email : String
  password : String
  deriving Repr

/-- Substring occurrence over character lists: the needle is a prefix of some
suffix of the haystack. -/
def listContainsSub (hay needle : List Char) : Bool :=
  match hay with
  | [] => needle.isEmpty
  | _ :: rest => needle.isPrefixOf hay || listContainsSub rest needle

/-- Python `needle in hay` for strings: substring containment. -/
def strContains (hay : String) (needle : String) : Bool :=
  listContainsSub hay.toList needle.toList

/-- Python `str.lower` (the constraint names looked for are ASCII). -/
def strToLower (s : String) : String :=
  String.mk (s.toList.map Char.toLower)

/-- The `except IntegrityError` block of `RegisterUserUseCase._run` (lines
63-77): when the original error is not a `UniqueViolationError`, re-raise it
unchanged; otherwise lowercase its message and translate the
`ix_users_username` constraint to `UsernameAlreadyExists` and the
`ix_users_email` constraint to `EmailAlreadyExists`; any other unique
violation is re-raised unchanged. -/
def handleIntegrityError (uniqueViolation : Bool) (origMsg : String) : AppError :=
  if ¬uniqueViolation then AppError.integrityError uniqueViolation origMsg
  else
    let error_msg := strToLower origMsg
    if strContains error_msg "ix_users_username" then AppError.usernameAlreadyExists
    else if strContains error_msg "ix_users_email" then AppError.emailAlreadyExists
    else AppError.integrityError uniqueViolation origMsg

/-- `RegisterUserUseCase._run`: optimistic pre-checks by username then email;
build the entity through the factory; validate the password; hash and attach
it; then persist. The database outcome of `create_user` is a parameter:
`none` means the insert succeeded, `some (unique, msg)` means it raised an
`IntegrityError` with original error message `msg`, a `UniqueViolationError`
iff `unique`, which the except-block translates. -/
def RegisterUserUseCase.run (st : Store) (dto : RegisterUserDTO)
    (freshId : Nat) (now : Nat) (dbOutcome : Option (Bool × String)) :
    Except AppError (User × Store) := do
  if (st.get_by_username dto.username).isSome then
    Except.error AppError.usernameAlreadyExists
  else if (st.get_by_email dto.email).isSome then
    Except.error AppError.emailAlreadyExists
  else do
    let new_user ← User.create dto.username dto.email freshId now
    let password ← Password.make dto.password
    let hashed := get_password_hash password.value
    let new_user ← new_user.set_password hashed now
    match dbOutcome with
    | some (unique, msg) => Except.error (handleIntegrityError unique msg)
    | none => Except.ok (new_user, st.create_user new_user)

/-! Theorems settling the claims, preceded by shared equation lemmas. -/

/-- With a valid username and an email containing an at sign,
`UserIdentity.make` returns the value object. -/
theorem UserIdentity_make_ok {username email : String} (h0 : username ≠ "")
    (h4 : 4 ≤ username.length) (h10 : username.length ≤ 10)
    (he : pyIn '@' email = true) :
    UserIdentity.make username email
      = Except.ok { username := username, email := email } := by
  simp [UserIdentity.make, h0, h4, h10, he]

/-- With an invalid username, `UserIdentity.make` raises
`InvalidUsernameFormat`. -/
theorem UserIdentity_make_err {username : String} (email : String)
    (hc : username = "" ∨ ¬(4 ≤ username.length ∧ username.length ≤ 10)) :
    UserIdentity.make username email
      = Except.error AppError.invalidUsernameFormat := by
  unfold UserIdentity.make
  rw [if_pos hc]

/-- Equation lemma for a successful `User.create`. -/
theorem User_create_ok {username email : String} (freshId now : Nat)
    (h0 : username ≠ "") (h4 : 4 ≤ username.length)
    (h10 : username.length ≤ 10) (he : pyIn '@' email = true) :
    User.create username email freshId now
      = Except.ok ⟨freshId, ⟨username, email⟩, ⟨"", false, false⟩, now, now⟩ := by
  unfold User.create
  rw [UserIdentity_make_ok h0 h4 h10 he]
  rfl

/-- Equation lemma for `User.create` with an invalid username. -/
theorem User_create_err {username : String} (email : String)
    (freshId now : Nat)
    (hc : username = "" ∨ ¬(4 ≤ username.length ∧ username.length ≤ 10)) :
    User.create username email freshId now
      = Except.error AppError.invalidUsernameFormat := by
  unfold User.create
  rw [UserIdentity_make_err email hc]
  rfl

/-- Equation lemma for a successful `change_email`. -/
theorem User_change_email_ok (u : User) (e : String) (now : Nat)
    (hu0 : u.identity.username ≠ "") (hu4 : 4 ≤ u.identity.username.length)
    (hu10 : u.identity.username.length ≤ 10) (he : pyIn '@' e = true) :
    u.change_email e now = Except.ok { u with
      identity := { username := u.identity.username, email := e },
      security := { u.security with is_email_verified := false },
      updated_at := now } := by
  unfold User.change_email
  rw [UserIdentity_make_ok hu0 hu4 hu10 he]
  rfl

/-- Equation lemma for a successful `change_username`. -/
theorem User_change_username_ok (u : User) (n : String) (now : Nat)
    (h0 : n ≠ "") (h4 : 4 ≤ n.length) (h10 : n.length ≤ 10)
    (he : pyIn '@' u.identity.email = true) :
    u.change_username n now = Except.ok { u with
      identity := { username := n, email := u.identity.email },
      updated_at := now } := by
  unfold User.change_username
  rw [UserIdentity_make_ok h0 h4 h10 he]
  rfl

/-- Binding a successful `Except` value applies the continuation. -/
theorem exceptBind_ok {α β : Type} (a : α) (f : α → Except AppError β) :
    (Except.ok a >>= f) = f a := rfl

/-- Equation lemma for a successful `Password.make`. -/
theorem Password_make_ok {s : String} (h8 : ¬(s.length < 8))
    (hu : hasUppercase s = true) (hl : hasLowercase s = true)
    (hd : hasDigitChar s = true) :
    Password.make s = Except.ok ⟨s⟩ := by
  unfold Password.make
  rw [if_neg h8, if_neg (by simp [hu]), if_neg (by simp [hl]),
    if_neg (by simp [hd])]

/-- The modelled password hash is never the empty string. -/
theorem get_password_hash_ne_empty (p : String) : get_password_hash p ≠ "" := by
  intro h
  have h2 : (get_password_hash p).length = 0 := by
    rw [h]
    rfl
  unfold get_password_hash at h2
  rw [String.length_append] at h2
  have h9 : ("argon2id$" : String).length = 9 := by decide
  omega

/-- Equation lemma for `set_password` with a freshly computed hash. -/
theorem User_set_password_hash_ok (u : User) (p : String) (now : Nat) :
    u.set_password (get_password_hash p) now
      = Except.ok { u with
          security := { u.security with
            hashed_password := get_password_hash p },
          updated_at := now } := by
  unfold User.set_password
  rw [if_neg (get_password_hash_ne_empty p)]

/-- Claim C4: for every account state (whatever `is_email_verified` was, and
even when the new email equals the current one), `change_email` sets
`is_email_verified` to false and `updated_at` to now, and applying it twice
in a row with the same email still leaves `is_email_verified` false. -/
theorem change_email_always_resets_verification (u : User) (e : String)
    (now now' : Nat) (hu0 : u.identity.username ≠ "")
    (hu4 : 4 ≤ u.identity.username.length)
    (hu10 : u.identity.username.length ≤ 10)
    (hemail : pyIn '@' e = true) :
    (u.change_email e now).map (fun v => v.security.is_email_verified)
        = Except.ok false
    ∧ (u.change_email e now).map (fun v => v.updated_at) = Except.ok now
    ∧ ((u.change_email e now).bind (fun v => v.change_email e now')).map
        (fun w => w.security.is_email_verified) = Except.ok false := by
  have h1 := User_change_email_ok u e now hu0 hu4 hu10 hemail
  have h2 := User_change_email_ok
    { u with identity := { username := u.identity.username, email := e },
             security := { u.security with is_email_verified := false },
             updated_at := now }
    e now' hu0 hu4 hu10 hemail
  simp only [h1, h2, Except.map, Except.bind]
  exact ⟨trivial, trivial, trivial⟩

/-- Witness for C4 at a concrete account: a verified account changing its
email to its current value, twice. -/
theorem change_email_always_resets_verification_witness :
    let u : User :=
      { id := 1,
        identity := { username := "alice", email := "a@x.com" },
        security := { hashed_password := "h", disabled := false,
                      is_email_verified := true },
        created_at := 0, updated_at := 0 }
    (u.change_email "a@x.com" 5).map (fun v => v.security.is_email_verified)
        = Except.ok false
    ∧ (u.change_email "a@x.com" 5).map (fun v => v.updated_at) = Except.ok 5
    ∧ ((u.change_email "a@x.com" 5).bind
          (fun v => v.change_email "a@x.com" 6)).map
        (fun w => w.security.is_email_verified) = Except.ok false :=
  change_email_always_resets_verification _ "a@x.com" 5 6
    (by decide) (by decide) (by decide) (by decide)

/-- Claim C10: for every account state and valid new username,
`change_username` keeps the email, the hashed password, the disabled flag and
`is_email_verified` unchanged; only the username and `updated_at` change
(and id and `created_at` are untouched). -/
theorem change_username_frame (u : User) (newName : String) (now : Nat)
    (h0 : newName ≠ "") (h4 : 4 ≤ newName.length) (h10 : newName.length ≤ 10)
    (hemail : pyIn '@' u.identity.email = true) :
    (u.change_username newName now).map
        (fun v => (v.identity.email, v.security.hashed_password,
          v.security.disabled, v.security.is_email_verified,
          v.identity.username, v.updated_at, v.id, v.created_at))
      = Except.ok (u.identity.email, u.security.hashed_password,
          u.security.disabled, u.security.is_email_verified,
          newName, now, u.id, u.created_at) := by
  simp only [User_change_username_ok u newName now h0 h4 h10 hemail,
    Except.map]

/-- Witness for C10 at a concrete verified account changing its username. -/
theorem change_username_frame_witness :
    let u : User :=
      { id := 2,
        identity := { username := "alice", email := "a@x.com" },
        security := { hashed_password := "h", disabled := true,
                      is_email_verified := true },
        created_at := 0, updated_at := 0 }
    (u.change_username "bobby" 7).map
        (fun v => (v.identity.email, v.security.hashed_password,
          v.security.disabled, v.security.is_email_verified,
          v.identity.username, v.updated_at, v.id, v.created_at))
      = Except.ok ("a@x.com", "h", true, true, "bobby", 7, 2, 0) :=
  change_username_frame _ "bobby" 7 (by decide) (by decide) (by decide)
    (by decide)

/-- Claim C8: `Password` construction succeeds iff the string has length at
least 8 and contains at least one uppercase letter, one lowercase letter and
one digit; on failure it raises `InvalidPasswordFormat` carrying the message
of the first violated rule in the order length, uppercase, lowercase,
digit. -/
theorem password_validation_rules (s : String) :
    (exceptIsOk (Password.make s) = true ↔
      (8 ≤ s.length ∧ hasUppercase s = true ∧ hasLowercase s = true
        ∧ hasDigitChar s = true))
    ∧ (s.length < 8 →
        Password.make s
          = Except.error (AppError.invalidPasswordFormat passwordLengthMessage))
    ∧ (8 ≤ s.length → hasUppercase s = false →
        Password.make s
          = Except.error (AppError.invalidPasswordFormat passwordUppercaseMessage))
    ∧ (8 ≤ s.length → hasUppercase s = true → hasLowercase s = false →
        Password.make s
          = Except.error (AppError.invalidPasswordFormat passwordLowercaseMessage))
    ∧ (8 ≤ s.length → hasUppercase s = true → hasLowercase s = true →
        hasDigitChar s = false →
        Password.make s
          = Except.error (AppError.invalidPasswordFormat passwordDigitMessage)) := by
  by_cases hl : s.length < 8 <;>
    by_cases hu : hasUppercase s = true <;>
    by_cases hlo : hasLowercase s = true <;>
    by_cases hd : hasDigitChar s = true <;>
    simp [Password.make, exceptIsOk, hl, hu, hlo, hd] <;>
    omega

/-- Witness for C8: a password violating only the digit rule fails with the
digit message, and a fully valid password succeeds. -/
theorem password_validation_rules_witness :
    (8 ≤ ("Password" : String).length ∧ hasUppercase "Password" = true
      ∧ hasLowercase "Password" = true ∧ hasDigitChar "Password" = false)
    ∧ Password.make "Password"
        = Except.error (AppError.invalidPasswordFormat passwordDigitMessage)
    ∧ exceptIsOk (Password.make "Passw0rd") = true :=
  ⟨by decide,
   (password_validation_rules "Password").2.2.2.2 (by decide) (by decide)
     (by decide) (by decide),
   (password_validation_rules "Passw0rd").1.mpr
     ⟨by decide, by decide, by decide, by decide⟩⟩

/-- Claim C9: with a valid email, account creation through the factory
succeeds iff the username length lies in [4,10]; for any length outside the
range it fails with `InvalidUsernameFormat`. -/
theorem username_length_validation (username email : String)
    (freshId now : Nat) :
    (pyIn '@' email = true →
      (exceptIsOk (User.create username email freshId now) = true ↔
        (4 ≤ username.length ∧ username.length ≤ 10)))
    ∧ (username.length < 4 ∨ 10 < username.length →
        User.create username email freshId now
          = Except.error AppError.invalidUsernameFormat) := by
  constructor
  · intro hemail
    constructor
    · intro h
      by_cases hc : username = "" ∨ ¬(4 ≤ username.length ∧ username.length ≤ 10)
      · rw [User_create_err email freshId now hc] at h
        simp [exceptIsOk] at h
      · push_neg at hc
        exact hc.2
    · rintro ⟨h4, h10⟩
      have h0 : username ≠ "" := by
        intro hcontra
        rw [hcontra] at h4
        simp at h4
      rw [User_create_ok freshId now h0 h4 h10 hemail]
      rfl
  · intro h
    exact User_create_err email freshId now (Or.inr (by omega))

/-- Witness for C9: a three-letter username is rejected with
`InvalidUsernameFormat`, a five-letter one is accepted. -/
theorem username_length_validation_witness :
    (exceptIsOk (User.create "alice" "a@x.com" 1 0) = true
      ↔ (4 ≤ ("alice" : String).length ∧ ("alice" : String).length ≤ 10))
    ∧ User.create "abc" "a@x.com" 1 0
        = Except.error AppError.invalidUsernameFormat :=
  ⟨(username_length_validation "alice" "a@x.com" 1 0).1 (by decide),
   (username_length_validation "abc" "a@x.com" 1 0).2
     (Or.inl (by decide))⟩

/-- Claim C5: authentication yields the same `InvalidCredentials` error value
both when no account with the username exists and when the account exists
but password verification fails; the caller receives no distinguishing
signal. -/
theorem authenticate_invalid_credentials (issueToken : TokenData → String)
    (st : Store) (username password : String)
    (h : st.get_by_username username = none ∨
      ∃ u, st.get_by_username username = some u ∧
        verify_password password u.security.hashed_password = false) :
    AuthenticateUserUseCase.run issueToken st username password
      = Except.error AppError.invalidCredentials := by
  unfold AuthenticateUserUseCase.run
  rcases h with h | ⟨u, hu, hv⟩
  · rw [h]
  · rw [hu]
    simp [hv]

/-- Witness for C5: a nonexistent username and an existing username with a
wrong password both yield `InvalidCredentials`. -/
theorem authenticate_invalid_credentials_witness :
    AuthenticateUserUseCase.run (fun _ => "t") ⟨[]⟩ "alice" "pw"
        = Except.error AppError.invalidCredentials
    ∧ AuthenticateUserUseCase.run (fun _ => "t")
        ⟨[⟨1, ⟨"alice", "a@x.com"⟩, ⟨"argon2id$Secret1", false, false⟩, 0, 0⟩]⟩
        "alice" "wrong"
        = Except.error AppError.invalidCredentials :=
  ⟨authenticate_invalid_credentials _ _ "alice" "pw" (Or.inl (by decide)),
   authenticate_invalid_credentials _ _ "alice" "wrong"
     (Or.inr ⟨⟨1, ⟨"alice", "a@x.com"⟩, ⟨"argon2id$Secret1", false, false⟩, 0, 0⟩,
       by decide, by decide⟩)⟩

/-- Claim C6: for a disabled account, authenticating with a password that
verifies against the stored hash yields `UserDisabled`, not
`InvalidCredentials`: the disabled check runs only after the password check
succeeds. -/
theorem authenticate_disabled_account (issueToken : TokenData → String)
    (st : Store) (username password : String) (u : User)
    (hfind : st.get_by_username username = some u)
    (hverify : verify_password password u.security.hashed_password = true)
    (hdisabled : u.security.disabled = true) :
    AuthenticateUserUseCase.run issueToken st username password
      = Except.error AppError.userDisabled
    ∧ AppError.userDisabled ≠ AppError.invalidCredentials := by
  refine ⟨?_, by decide⟩
  unfold AuthenticateUserUseCase.run
  rw [hfind]
  simp [hverify, User.is_enabled, hdisabled]

/-- Witness for C6: a disabled account with the correct password. -/
theorem authenticate_disabled_account_witness :
    AuthenticateUserUseCase.run (fun _ => "t")
        ⟨[⟨1, ⟨"alice", "a@x.com"⟩, ⟨"argon2id$Secret1", true, false⟩, 0, 0⟩]⟩
        "alice" "Secret1"
        = Except.error AppError.userDisabled
    ∧ AppError.userDisabled ≠ AppError.invalidCredentials :=
  authenticate_disabled_account _ _ "alice" "Secret1"
    ⟨1, ⟨"alice", "a@x.com"⟩, ⟨"argon2id$Secret1", true, false⟩, 0, 0⟩
    (by decide) (by decide) (by decide)

/-- Claim C3: when the supplied current password does not verify against the
stored hash, the update use case fails with `InvalidPasswordException`
(distinct from `InvalidCredentials`) before any mutation: the returned
entity state is the input account and the store is unchanged. -/
theorem update_profile_wrong_password_fail_fast (st : Store) (user : User)
    (dto : UpdateUserDTO) (now : Nat)
    (h : verify_password dto.current_password user.security.hashed_password
      = false) :
    UpdateUserUseCase.run st user dto now
      = (Except.error AppError.invalidPasswordException, user, st)
    ∧ AppError.invalidPasswordException ≠ AppError.invalidCredentials := by
  refine ⟨?_, by decide⟩
  have hcond : ¬(verify_password dto.current_password
      user.security.hashed_password = true) := by
    simp [h]
  unfold UpdateUserUseCase.run
  rw [if_pos hcond]

/-- Witness for C3: an update request carrying a wrong current password, on a
verified account in a one-account store. -/
theorem update_profile_wrong_password_fail_fast_witness :
    UpdateUserUseCase.run
        ⟨[⟨1, ⟨"alice", "a@x.com"⟩, ⟨"argon2id$Secret1", false, true⟩, 0, 0⟩]⟩
        ⟨1, ⟨"alice", "a@x.com"⟩, ⟨"argon2id$Secret1", false, true⟩, 0, 0⟩
        { current_password := "wrong", username := some "bobby" } 9
      = (Except.error AppError.invalidPasswordException,
         ⟨1, ⟨"alice", "a@x.com"⟩, ⟨"argon2id$Secret1", false, true⟩, 0, 0⟩,
         ⟨[⟨1, ⟨"alice", "a@x.com"⟩, ⟨"argon2id$Secret1", false, true⟩, 0, 0⟩]⟩)
    ∧ AppError.invalidPasswordException ≠ AppError.invalidCredentials :=
  update_profile_wrong_password_fail_fast _ _ _ 9 (by decide)

/-- Claim C1: `verify_password` returns a boolean on every plaintext and
hash: true or false on every input (never an exception), and false on any
mismatch or malformed hash. -/
theorem verify_password_boolean_total (p h : String) :
    (verify_password p h = true ∨ verify_password p h = false)
    ∧ (h ≠ get_password_hash p → verify_password p h = false) := by
  constructor
  · cases hv : verify_password p h
    · exact Or.inr rfl
    · exact Or.inl rfl
  · intro hne
    unfold verify_password
    simp [hne]

/-- Witness for C1: a malformed hash string yields false, not an error. -/
theorem verify_password_boolean_total_witness :
    (verify_password "Passw0rd" "garbage" = true
      ∨ verify_password "Passw0rd" "garbage" = false)
    ∧ verify_password "Passw0rd" "garbage" = false :=
  ⟨(verify_password_boolean_total "Passw0rd" "garbage").1,
   (verify_password_boolean_total "Passw0rd" "garbage").2 (by decide)⟩

/-- Claim C7: `decode_access_token` is total on every library outcome for the
input token: on a verified payload it returns the embedded subject id, on
any `PyJWTError` (expired, tampered, unverifiable) it returns the `none`
sentinel — never an exception. -/
theorem decode_access_token_never_raises (outcome : JwtDecodeOutcome) :
    (∀ claims, outcome = JwtDecodeOutcome.payload claims →
      decode_access_token outcome = payloadGet claims "sub")
    ∧ (outcome = JwtDecodeOutcome.pyJwtError →
      decode_access_token outcome = none) := by
  constructor
  · intro claims hc
    rw [hc]
    rfl
  · intro hc
    rw [hc]
    rfl

/-- Witness for C7: a decoded payload returns its sub claim, a PyJWT failure
returns the sentinel. -/
theorem decode_access_token_never_raises_witness :
    decode_access_token (JwtDecodeOutcome.payload [("sub", "42")])
        = payloadGet [("sub", "42")] "sub"
    ∧ decode_access_token JwtDecodeOutcome.pyJwtError = none :=
  ⟨(decode_access_token_never_raises _).1 _ rfl,
   (decode_access_token_never_raises _).2 rfl⟩

/-- Claim C2: when `create_user` raises an `IntegrityError` during
registration (after the pre-checks passed and the entity, password and hash
were built), the use case translates a `UniqueViolationError` naming the
`ix_users_username` constraint into `UsernameAlreadyExists` and one naming
the `ix_users_email` constraint into `EmailAlreadyExists`; an
`IntegrityError` that is not a unique violation, and a unique violation
naming neither constraint, propagate unchanged. -/
theorem register_translates_unique_violation (st : Store)
    (dto : RegisterUserDTO) (freshId now : Nat) (unique : Bool) (msg : String)
    (hu : st.get_by_username dto.username = none)
    (he : st.get_by_email dto.email = none)
    (h0 : dto.username ≠ "") (h4 : 4 ≤ dto.username.length)
    (h10 : dto.username.length ≤ 10) (hat : pyIn '@' dto.email = true)
    (hp8 : ¬(dto.password.length < 8))
    (hpu : hasUppercase dto.password = true)
    (hpl : hasLowercase dto.password = true)
    (hpd : hasDigitChar dto.password = true) :
    (unique = true → strContains (strToLower msg) "ix_users_username" = true →
      RegisterUserUseCase.run st dto freshId now (some (unique, msg))
        = Except.error AppError.usernameAlreadyExists)
    ∧ (unique = true →
        strContains (strToLower msg) "ix_users_username" = false →
        strContains (strToLower msg) "ix_users_email" = true →
        RegisterUserUseCase.run st dto freshId now (some (unique, msg))
          = Except.error AppError.emailAlreadyExists)
    ∧ (unique = false →
        RegisterUserUseCase.run st dto freshId now (some (unique, msg))
          = Except.error (AppError.integrityError unique msg))
    ∧ (strContains (strToLower msg) "ix_users_username" = false →
        strContains (strToLower msg) "ix_users_email" = false →
        RegisterUserUseCase.run st dto freshId now (some (unique, msg))
          = Except.error (AppError.integrityError unique msg)) := by
  have hc1 : ¬((st.get_by_username dto.username).isSome = true) := by
    simp [hu]
  have hc2 : ¬((st.get_by_email dto.email).isSome = true) := by
    simp [he]
  have hrun : RegisterUserUseCase.run st dto freshId now (some (unique, msg))
      = Except.error (handleIntegrityError unique msg) := by
    unfold RegisterUserUseCase.run
    rw [if_neg hc1, if_neg hc2]
    simp only [User_create_ok freshId now h0 h4 h10 hat, exceptBind_ok,
      Password_make_ok hp8 hpu hpl hpd, User_set_password_hash_ok]
  refine ⟨?_, ?_, ?_, ?_⟩
  · intro hq hs
    rw [hrun]
    simp [handleIntegrityError, hq, hs]
  · intro hq hs1 hs2
    rw [hrun]
    simp [handleIntegrityError, hq, hs1, hs2]
  · intro hq
    rw [hrun]
    simp [handleIntegrityError, hq]
  · intro hs1 hs2
    rw [hrun]
    cases unique <;> simp [handleIntegrityError, hs1, hs2]

/-- Witness for C2: in an empty store, registering a valid account whose
insert fails with a unique violation naming `ix_users_username` yields
`UsernameAlreadyExists`. -/
theorem register_translates_unique_violation_witness :
    RegisterUserUseCase.run ⟨[]⟩ ⟨"alice", "a@x.com", "Passw0rd"⟩ 1 0
        (some (true, "duplicate key violates \"IX_USERS_USERNAME\""))
      = Except.error AppError.usernameAlreadyExists :=
  (register_translates_unique_violation ⟨[]⟩ ⟨"alice", "a@x.com", "Passw0rd"⟩
      1 0 true "duplicate key violates \"IX_USERS_USERNAME\""
      (by decide) (by decide) (by decide) (by decide) (by decide) (by decide)
      (by decide) (by decide) (by decide) (by decide)).1
    rfl (by decide)
